import Mathlib

/-!
Verification development for the ThermicCamara repository: the seven-segment
digit-recognition pipeline (`script.py`, `readCamaratest.py`, `PixelToNumber.py`)
and the grid-scanning loops (`script.py` `main`, `cervoController.py`).

Modelling conventions:
* Python floats are modelled as exact rationals (`ℚ`).  Every float produced by
  the pipeline is either a small decimal or a cast of a natural number, so no
  claim settled here depends on binary rounding.  In particular the fractional
  calibration literals (`0.17`, `0.44`, ...) are modelled by the exact
  rationals they denote.
* Raising `ValueError` is modelled by `Option`: `none` is the raised exception.
* The `cv2` overlay images are cosmetic (they never feed back into a returned
  pixel value or reading) and are omitted from the model.
* Python `int()` applied to a float truncates toward zero; this is `pyInt`.
* A camera is modelled as a stream `ℕ → Option Frame`: the value of the k-th
  `cap.read()` call, `none` meaning `ret == False` (a dropped frame).
-/

/-- An RGB pixel; each channel is a natural number (0–255 in practice). -/
structure Pixel where
  r : ℕ
  g : ℕ
  b : ℕ
deriving DecidableEq, Repr

/-- An RGB frame of width `w` and height `h`; `pixel x y` is the colour at
column `x`, row `y` (consulted only for in-bounds coordinates). -/
structure Frame where
  w : ℕ
  h : ℕ
  pixel : ℕ → ℕ → Pixel

/-- Module-level calibration constant `threshold = 150` (script.py line 13,
readCamaratest.py line 8, PixelToNumber.py line 1). -/
def threshold : ℕ := 150

/-- A seven-segment pattern, ordered A, B, C, D, E, F, G, exactly the keys of
the Python lookup dictionaries (7-tuples of booleans). -/
abbrev SegPattern := Bool × Bool × Bool × Bool × Bool × Bool × Bool

/-- The lookup table `values` of script.py lines 16–27.  The table in
readCamaratest.py lines 11–22 is entry-for-entry the same. -/
def values : List (SegPattern × ℕ) :=
  [ ((true, true, true, true, true, true, false), 0),
    ((false, true, true, false, false, false, false), 1),
    ((true, true, false, true, true, false, true), 2),
    ((true, true, true, true, false, false, true), 3),
    ((false, true, true, false, false, true, true), 4),
    ((true, false, true, true, false, true, true), 5),
    ((true, false, true, true, true, true, true), 6),
    ((true, true, true, false, false, false, false), 7),
    ((true, true, true, true, true, true, true), 8),
    ((true, true, true, true, false, true, true), 9) ]

/-- The different lookup table `values` of PixelToNumber.py lines 3–14. -/
def valuesPTN : List (SegPattern × ℕ) :=
  [ ((true, true, true, false, true, true, true), 0),
    ((false, false, true, false, false, true, false), 1),
    ((true, false, true, true, true, false, true), 2),
    ((true, false, true, true, false, true, true), 3),
    ((false, true, true, true, false, true, false), 4),
    ((true, true, false, true, false, true, true), 5),
    ((true, true, false, true, true, true, true), 6),
    ((true, false, true, false, false, true, false), 7),
    ((true, true, true, true, true, true, true), 8),
    ((true, true, true, true, false, true, false), 9) ]

/-- Dictionary lookup `values.get(pattern)` (script.py line 42, without the
`-1` default). -/
def valuesGet (p : SegPattern) : Option ℕ := values.lookup p

/-- Dictionary lookup in PixelToNumber.py's table. -/
def valuesGetPTN (p : SegPattern) : Option ℕ := valuesPTN.lookup p

/-- Average intensity of a pixel: `sum(int(c) for c in pixel) / 3.0`
(script.py line 33; PixelToNumber.py line 19 computes `sum(pixel) / 3`,
the same rational). -/
def avgIntensity (p : Pixel) : ℚ := ((p.r : ℚ) + p.g + p.b) / 3

/-- The per-pixel body of `GetBoolValues`: `avg_intensity > threshold`
(script.py line 34).  The threshold is an explicit parameter here; it is the
module constant `threshold` at every call site. -/
def classifyPixel (t : ℕ) (p : Pixel) : Bool := decide ((t : ℚ) < avgIntensity p)

/-- `GetBoolValues` of script.py lines 29–37: classify each pixel against the
module threshold.  (readCamaratest.py lines 24–35 and PixelToNumber.py
lines 17–19 compute the same list.) -/
def GetBoolValues (pl : List Pixel) : List Bool := pl.map (classifyPixel threshold)

/-- `ReturnSingleNumber` of script.py lines 39–44: `tuple(bool_list)` then
`values.get(pattern, -1)`.  A list that is not a 7-tuple matches no dictionary
key, hence `-1`. -/
def ReturnSingleNumber (bl : List Bool) : ℤ :=
  match bl with
  | [a, b, c, d, e, f, g] =>
    match valuesGet (a, b, c, d, e, f, g) with
    | some n => (n : ℤ)
    | none => -1
  | _ => -1

/-- `ReturnSingleNumber` of PixelToNumber.py lines 22–24 (the same code,
reading its own table). -/
def returnSingleNumberPTN (bl : List Bool) : ℤ :=
  match bl with
  | [a, b, c, d, e, f, g] =>
    match valuesGetPTN (a, b, c, d, e, f, g) with
    | some n => (n : ℤ)
    | none => -1
  | _ => -1

/-- The tuple form of a pattern as the boolean list fed to
`ReturnSingleNumber`. -/
def patternToList (p : SegPattern) : List Bool :=
  [p.1, p.2.1, p.2.2.1, p.2.2.2.1, p.2.2.2.2.1, p.2.2.2.2.2.1, p.2.2.2.2.2.2]

/-- Python `int()` on a float: truncation toward zero. -/
def pyInt (q : ℚ) : ℤ := if 0 ≤ q then ⌊q⌋ else ⌈q⌉

/-- The number of characters of `str(n)` for a natural number `n` (the decimal
digit count, `1` for `0`).  Defined with an explicit fuel argument so that it
is structurally recursive. -/
def numDigitsGo : ℕ → ℕ → ℕ
  | _, 0 => 0
  | 0, _ + 1 => 0
  | fuel + 1, m + 1 => numDigitsGo fuel ((m + 1) / 10) + 1

/-- Decimal digit count of `str(n)`. -/
def numDigits (n : ℕ) : ℕ := if n = 0 then 1 else numDigitsGo n n

/-- The natural number denoted by the string concatenation
`"".join(str(d) for d in ds)`: each digit group shifts the accumulator by its
own decimal width. -/
def decimalConcat (ds : List ℕ) : ℕ :=
  ds.foldl (fun acc d => acc * 10 ^ numDigits d + d) 0

/-- The float value of `float(f"{a}{b}.{c}")` for natural numbers `a`, `b`,
`c`: integer part is the decimal concatenation of `a` and `b`, fractional part
is `c` scaled by its own decimal width. -/
def pyConcatFloat (a b c : ℕ) : ℚ :=
  ((a * 10 ^ numDigits b + b : ℕ) : ℚ) + (c : ℚ) / (10 : ℚ) ^ numDigits c

/-- One digit recognition: `ReturnSingleNumber(GetBoolValues(pixel_list))`
(script.py lines 49–51). -/
def digitOfSegPixels (pl : List Pixel) : ℤ := ReturnSingleNumber (GetBoolValues pl)

/-- The decoded digit of one seven-segment pixel list: `some d` for a table
digit, `none` when the pattern is unrecognized (`-1`). -/
def digitResult (pl : List Pixel) : Option ℕ :=
  if digitOfSegPixels pl = -1 then none else some (digitOfSegPixels pl).toNat

/-- The digit-collection loop of `GetNumber` (script.py lines 48–54): decode
each pixel list in turn; an unrecognized digit raises `ValueError`, modelled
as `none`. -/
def getDigits : List (List Pixel) → Option (List ℕ)
  | [] => some []
  | pl :: rest =>
    if digitOfSegPixels pl = -1 then none
    else
      match getDigits rest with
      | none => none
      | some ds => some ((digitOfSegPixels pl).toNat :: ds)

/-- `GetNumber` of script.py lines 46–55: the float parse of the concatenated
digit string, or `none` for the raised `ValueError`. -/
def GetNumber (numbers : List (List Pixel)) : Option ℕ :=
  (getDigits numbers).map decimalConcat

/-- `safe_get_number` of script.py lines 57–62: `GetNumber`, with the raised
`ValueError` caught and replaced by `0.0`.  Its value is always a
non-negative integer-valued float (a decimal digit concatenation or `0.0`),
modelled as that natural number; `int()` applied to it by the caller is then
the identity. -/
def safe_get_number (numbers : List (List Pixel)) : ℕ :=
  (GetNumber numbers).getD 0

/-- The three digit boxes of script.py lines 69–73, normalized
`(left, top, right, bottom)` fractions. -/
def digit_boxes : List (ℚ × ℚ × ℚ × ℚ) :=
  [ (17/100, 44/100, 41/100, 96/100),
    (37/100, 40/100, 62/100, 93/100),
    (61/100, 38/100, 82/100, 93/100) ]

/-- The seven segment offsets of script.py lines 77–85, normalized within a
digit box, in the order A, B, C, D, E, F, G. -/
def segment_offsets : List (ℚ × ℚ) :=
  [ (5/10, 1/10), (8/10, 3/10), (8/10, 7/10), (5/10, 9/10),
    (2/10, 7/10), (2/10, 3/10), (5/10, 5/10) ]

/-- Coordinate computation of `extract_digit_pixels_fractional` (script.py
lines 101–116): box corners are `int(frac * size)`, a segment's absolute pixel
is the box corner plus `int(rel * boxSize)`. -/
def segPixelCoord (f : Frame) (box : ℚ × ℚ × ℚ × ℚ) (off : ℚ × ℚ) : ℤ × ℤ :=
  let boxLeft := pyInt (box.1 * f.w)
  let boxTop := pyInt (box.2.1 * f.h)
  let boxRight := pyInt (box.2.2.1 * f.w)
  let boxBottom := pyInt (box.2.2.2 * f.h)
  (boxLeft + pyInt (off.1 * ((boxRight : ℚ) - boxLeft)),
   boxTop + pyInt (off.2 * ((boxBottom : ℚ) - boxTop)))

/-- The in-bounds test `0 <= px < w and 0 <= py < h` of script.py line 117. -/
abbrev inBounds (f : Frame) (c : ℤ × ℤ) : Prop :=
  0 ≤ c.1 ∧ c.1 < (f.w : ℤ) ∧ 0 ≤ c.2 ∧ c.2 < (f.h : ℤ)

/-- Sampling one segment point (script.py lines 117–128): the frame pixel when
in bounds, the defined edge colour `(0, 0, 0)` otherwise. -/
def samplePixel (f : Frame) (c : ℤ × ℤ) : Pixel :=
  if inBounds f c then f.pixel c.1.toNat c.2.toNat else ⟨0, 0, 0⟩

/-- `extract_digit_pixels_fractional` of script.py lines 90–129, restricted to
its returned `segment_pixels` list (the overlay image is cosmetic). -/
def extract_digit_pixels_fractional (f : Frame) (box : ℚ × ℚ × ℚ × ℚ)
    (offs : List (ℚ × ℚ)) : List Pixel :=
  offs.map (fun o => samplePixel f (segPixelCoord f box o))

/-- The seven-segment pixels of digit box `i` of a frame:
`all_digit_pixels[i]` in `read_digits_from_frame` (script.py lines 140–144). -/
def frameSegPixels (f : Frame) (i : ℕ) : List Pixel :=
  (digit_boxes.map fun box => extract_digit_pixels_fractional f box segment_offsets).getD i []

/-- The decoded digit of box `i` of a frame. -/
def frameDigitResult (f : Frame) (i : ℕ) : Option ℕ := digitResult (frameSegPixels f i)

/-- The reading-assembly tail of `read_digits_from_frame` (script.py
lines 151–162): each digit box is recognized independently through
`safe_get_number([seg_pixels])`, and the reading string
`f"{int(r0)}{int(r1)}.{int(r2)}"` is parsed as a float.  The string always
parses (each piece is a non-negative integer), so the `except ValueError`
branch of lines 159–160 is unreachable. -/
def assemble_reading (p1 p2 p3 : List Pixel) : ℚ :=
  pyConcatFloat (safe_get_number [p1]) (safe_get_number [p2]) (safe_get_number [p3])

/-- `read_digits_from_frame` of script.py lines 131–162, restricted to its
returned reading (the combined overlay is cosmetic). -/
def read_digits_from_frame (f : Frame) : ℚ :=
  assemble_reading (frameSegPixels f 0) (frameSegPixels f 1) (frameSegPixels f 2)

/-- The reading produced by one `update_ui()` call (script.py lines 235–265):
`0.0` when the camera poll returns no frame (lines 241–248), the frame's
reading otherwise. -/
def update_ui_value (camResult : Option Frame) : ℚ :=
  match camResult with
  | none => 0
  | some frame => read_digits_from_frame frame

/-- The cell visit order of the scan loop of script.py lines 270–277:
`for y in range(height): for x in range(width)`, recorded as `(x, y)` pairs. -/
def scriptVisitOrder (width height : ℕ) : List (ℕ × ℕ) :=
  (List.range height).flatMap fun y => (List.range width).map fun x => (x, y)

/-- The grid produced by the scan loop of script.py lines 270–277: cell
`(x, y)` is written with the reading of the one camera poll its `update_ui()`
call consumes, which is poll number `y * width + x` (one poll per cell, in
visit order). -/
def runScan (cam : ℕ → Option Frame) (width height : ℕ) : List (List ℚ) :=
  (List.range height).map fun y =>
    (List.range width).map fun x => update_ui_value (cam (y * width + x))

/-- Result of one `main()` run of script.py: either the early return of
lines 175–178 (camera unavailable, before the grid loop — readCamaratest.py
lines 153–156 is the same early return), or a completed scan together with
the order in which cells were visited. -/
inductive MainOutcome where
  | cameraUnavailable
  | completed (grid : List (List ℚ)) (visited : List (ℕ × ℕ))

/-- The `main()` control flow of script.py lines 168–306 around the camera
check: `if not cap.isOpened(): return` fires before the grid is scanned;
otherwise the full scan loop runs. -/
def mainScan (camOpened : Bool) (cam : ℕ → Option Frame) (width height : ℕ) :
    MainOutcome :=
  if camOpened then
    MainOutcome.completed (runScan cam width height) (scriptVisitOrder width height)
  else MainOutcome.cameraUnavailable

/-- The horizontal angles visited on one row of the grid-scanning loop of
cervoController.py lines 78–98: an even row starts at `H_MIN` and steps by
`+h_step`, an odd row starts at `H_MAX` and steps by `-h_step`; the servo is
positioned at the current angle before each increment, so column `col` sees
`start + col * step`. -/
def cervoRowAngles (n : ℕ) (HMIN HMAX hstep : ℚ) (row : ℕ) : List ℚ :=
  (List.range n).map fun (col : ℕ) =>
    (if row % 2 = 0 then HMIN else HMAX) +
      (col : ℚ) * (if row % 2 = 0 then hstep else -hstep)

/-- A saturated white pixel. -/
def whitePx : Pixel := ⟨255, 255, 255⟩

/-- A black pixel. -/
def blackPx : Pixel := ⟨0, 0, 0⟩

/-- Seven segment pixels realizing a given boolean pattern: white where the
segment is on, black where it is off. -/
def segPixelsOfPattern (bl : List Bool) : List Pixel :=
  bl.map (fun b => if b then whitePx else blackPx)

/-- The segment pattern of digit 2 in the script.py table. -/
def pat2 : List Bool := [true, true, false, true, true, false, true]

/-- The segment pattern of digit 0 in the script.py table. -/
def pat0 : List Bool := [true, true, true, true, true, true, false]

/-- The segment pattern of digit 4 in the script.py table. -/
def pat4 : List Bool := [false, true, true, false, false, true, true]

/-- The all-off pattern of a blank display. -/
def patBlank : List Bool := [false, false, false, false, false, false, false]

/-- Segment pixels decoding to nothing (all black, hence all segments off). -/
def segsUnrec : List Pixel := segPixelsOfPattern patBlank

/-- Segment pixels decoding to the digit 0. -/
def segsZero : List Pixel := segPixelsOfPattern pat0

/-- Segment pixels decoding to the digit 4. -/
def segsFour : List Pixel := segPixelsOfPattern pat4

/-- The sample points of `frame204` that are lit: under the model's exact
box arithmetic on a 100×100 frame, the seven sample points of box 1 are
(29,49),(36,59),(36,80),(29,90),(21,80),(21,59),(29,70); of box 2
(49,45),(57,55),(57,77),(49,87),(42,77),(42,55),(49,66); of box 3
(71,43),(77,54),(77,76),(71,87),(65,76),(65,54),(71,65).  The lit subset
realizes the patterns of the digits 2, 0 and 4 respectively. -/
def onPoints204 : List (ℕ × ℕ) :=
  [ (29, 49), (36, 59), (29, 90), (21, 80), (29, 70),
    (49, 45), (57, 55), (57, 77), (49, 87), (42, 77), (42, 55),
    (77, 54), (77, 76), (65, 54), (71, 65) ]

/-- A 100×100 frame whose three digit boxes decode to the digits 2, 0, 4. -/
def frame204 : Frame :=
  ⟨100, 100, fun x y => if (x, y) ∈ onPoints204 then whitePx else blackPx⟩

/-- A camera stream that drops its first frame and then delivers `frame204`
forever. -/
def dropThenGood : ℕ → Option Frame :=
  fun k => if k = 0 then none else some frame204

/-! ### Helper lemmas -/

/-- A pixel classifies as on exactly when its average intensity strictly
exceeds the threshold. -/
theorem classifyPixel_true_iff (t : ℕ) (p : Pixel) :
    classifyPixel t p = true ↔ (t : ℚ) < avgIntensity p := by
  simp [classifyPixel]

/-- A saturated white pixel classifies as on at the default threshold. -/
theorem classify_white : classifyPixel threshold whitePx = true := by
  simp only [classifyPixel, avgIntensity, whitePx, threshold]
  norm_num

/-- A black pixel classifies as off at the default threshold. -/
theorem classify_black : classifyPixel threshold blackPx = false := by
  simp only [classifyPixel, avgIntensity, blackPx, threshold]
  norm_num

/-- Classifying the white/black realization of a pattern recovers the
pattern. -/
theorem getBoolValues_pattern (bl : List Bool) :
    GetBoolValues (segPixelsOfPattern bl) = bl := by
  unfold GetBoolValues segPixelsOfPattern
  rw [List.map_map]
  have h : (classifyPixel threshold ∘ fun b => if b then whitePx else blackPx) = id := by
    funext b
    cases b <;> simp [Function.comp, classify_white, classify_black]
  rw [h, List.map_id]

set_option maxRecDepth 4000 in
/-- Every digit stored in the script.py lookup table is at most 9. -/
theorem valuesGet_getD_le (p : SegPattern) : (valuesGet p).getD 0 ≤ 9 := by
  revert p; decide

set_option maxRecDepth 4000 in
/-- The decoder returns `-1` or a table digit, hence never more than 9. -/
theorem returnSingleNumber_le_nine (bl : List Bool) : ReturnSingleNumber bl ≤ 9 := by
  unfold ReturnSingleNumber
  split
  · rename_i a b c d e f g
    revert a b c d e f g
    decide
  · decide

/-- A recognized digit is at most 9. -/
theorem digitResult_le_nine (pl : List Pixel) (d : ℕ) (h : digitResult pl = some d) :
    d ≤ 9 := by
  unfold digitResult at h
  split at h
  · exact absurd h (by simp)
  · have hd : d = (digitOfSegPixels pl).toNat := by simpa using h.symm
    subst hd
    exact Int.toNat_le.mpr (returnSingleNumber_le_nine _)

/-- The digit loop on a singleton list is the single decode. -/
theorem getDigits_single (pl : List Pixel) :
    getDigits [pl] = (digitResult pl).map (fun d => [d]) := by
  unfold getDigits digitResult
  split <;> simp [getDigits]

/-- Concatenating a single digit group is the digit itself. -/
theorem decimalConcat_single (d : ℕ) : decimalConcat [d] = d := by
  simp [decimalConcat]

/-- `GetNumber` on a singleton list is the decoded digit. -/
theorem getNumber_single (pl : List Pixel) : GetNumber [pl] = digitResult pl := by
  rw [GetNumber, getDigits_single]
  cases digitResult pl <;> simp [decimalConcat_single]

/-- `safe_get_number` on a singleton list is the decoded digit with the `0.0`
fallback. -/
theorem safe_get_number_single (pl : List Pixel) :
    safe_get_number [pl] = (digitResult pl).getD 0 := by
  rw [safe_get_number, getNumber_single]

/-- The per-box recognition value is at most 9. -/
theorem safe_get_number_single_le (pl : List Pixel) : safe_get_number [pl] ≤ 9 := by
  rw [safe_get_number_single]
  cases h : digitResult pl with
  | none => simp
  | some d => simpa using digitResult_le_nine pl d h

/-- Single-digit numbers print with one character. -/
theorem numDigits_le_nine (n : ℕ) (h : n ≤ 9) : numDigits n = 1 := by
  interval_cases n <;> rfl

/-- The parsed reading of three single-digit pieces. -/
theorem pyConcatFloat_small (a b c : ℕ) (hb : b ≤ 9) (hc : c ≤ 9) :
    pyConcatFloat a b c = 10 * a + b + (c : ℚ) / 10 := by
  unfold pyConcatFloat
  rw [numDigits_le_nine b hb, numDigits_le_nine c hc]
  push_cast
  ring
set_option maxHeartbeats 1600000 in
/-- Box 1 of `frame204` samples the white/black realization of the pattern of
digit 2. -/
theorem extract204_box0 :
    extract_digit_pixels_fractional frame204 (17/100, 44/100, 41/100, 96/100)
      segment_offsets = segPixelsOfPattern pat2 := by
  simp [extract_digit_pixels_fractional, segment_offsets, segPixelCoord, frame204,
    pyInt, samplePixel, inBounds, segPixelsOfPattern, pat2, whitePx, blackPx]
  norm_num [onPoints204]
  omega

set_option maxHeartbeats 1600000 in
/-- Box 2 of `frame204` samples the white/black realization of the pattern of
digit 0. -/
theorem extract204_box1 :
    extract_digit_pixels_fractional frame204 (37/100, 40/100, 62/100, 93/100)
      segment_offsets = segPixelsOfPattern pat0 := by
  simp [extract_digit_pixels_fractional, segment_offsets, segPixelCoord, frame204,
    pyInt, samplePixel, inBounds, segPixelsOfPattern, pat0, whitePx, blackPx]
  norm_num [onPoints204]
  omega

set_option maxHeartbeats 1600000 in
/-- Box 3 of `frame204` samples the white/black realization of the pattern of
digit 4. -/
theorem extract204_box2 :
    extract_digit_pixels_fractional frame204 (61/100, 38/100, 82/100, 93/100)
      segment_offsets = segPixelsOfPattern pat4 := by
  simp [extract_digit_pixels_fractional, segment_offsets, segPixelCoord, frame204,
    pyInt, samplePixel, inBounds, segPixelsOfPattern, pat4, whitePx, blackPx]
  norm_num [onPoints204]
  omega

/-- The white/black realization of the pattern of 2 decodes to 2. -/
theorem digitResult_pat2 : digitResult (segPixelsOfPattern pat2) = some 2 := by
  have h : ReturnSingleNumber pat2 = 2 := by decide
  simp [digitResult, digitOfSegPixels, getBoolValues_pattern, h]

/-- The white/black realization of the pattern of 0 decodes to 0. -/
theorem digitResult_pat0 : digitResult (segPixelsOfPattern pat0) = some 0 := by
  have h : ReturnSingleNumber pat0 = 0 := by decide
  simp [digitResult, digitOfSegPixels, getBoolValues_pattern, h]

/-- The white/black realization of the pattern of 4 decodes to 4. -/
theorem digitResult_pat4 : digitResult (segPixelsOfPattern pat4) = some 4 := by
  have h : ReturnSingleNumber pat4 = 4 := by decide
  simp [digitResult, digitOfSegPixels, getBoolValues_pattern, h]

/-- The all-off realization decodes to nothing. -/
theorem digitResult_patBlank : digitResult (segPixelsOfPattern patBlank) = none := by
  have h : ReturnSingleNumber patBlank = -1 := by decide
  simp [digitResult, digitOfSegPixels, getBoolValues_pattern, h]

/-- The per-box pixel lists of `frame204`. -/
theorem frameSegPixels204_map :
    digit_boxes.map
        (fun box => extract_digit_pixels_fractional frame204 box segment_offsets) =
      [segPixelsOfPattern pat2, segPixelsOfPattern pat0, segPixelsOfPattern pat4] := by
  simp [digit_boxes, extract204_box0, extract204_box1, extract204_box2]

/-- The decoded digits of the three boxes of `frame204` are 2, 0, 4. -/
theorem frameDigitResult204 :
    frameDigitResult frame204 0 = some 2 ∧
    frameDigitResult frame204 1 = some 0 ∧
    frameDigitResult frame204 2 = some 4 := by
  refine ⟨?_, ?_, ?_⟩ <;>
    rw [frameDigitResult, frameSegPixels, frameSegPixels204_map] <;>
    simp [digitResult_pat2, digitResult_pat0, digitResult_pat4]

/-- The reading of `frame204` is 20.4. -/
theorem read204 : read_digits_from_frame frame204 = 102 / 5 := by
  have h0 := frameDigitResult204.1
  have h1 := frameDigitResult204.2.1
  have h2 := frameDigitResult204.2.2
  rw [frameDigitResult] at h0 h1 h2
  rw [read_digits_from_frame, assemble_reading, safe_get_number_single,
    safe_get_number_single, safe_get_number_single, h0, h1, h2]
  simp only [Option.getD_some]
  rw [pyConcatFloat_small 2 0 4 (by norm_num) (by norm_num)]
  norm_num

/-! ### Claim theorems -/

/-- A successful association-list lookup key/value pair is a member of the
list. -/
theorem lookup_mem {α β : Type} [BEq α] [LawfulBEq α] {l : List (α × β)} {a : α} {b : β}
    (h : l.lookup a = some b) : (a, b) ∈ l := by
  induction l with
  | nil => simp at h
  | cons hd tl ih =>
    obtain ⟨k, v⟩ := hd
    rw [List.lookup_cons] at h
    rcases hk : a == k with _ | _
    · rw [hk] at h
      exact List.mem_cons_of_mem _ (ih h)
    · rw [hk] at h
      obtain rfl : a = k := by simpa using hk
      obtain rfl : v = b := by simpa using h
      exact List.mem_cons_self _ _

set_option maxRecDepth 8000 in
/-- C5: for every 7-boolean SegmentPattern, the decoder returns the digit a
table entry maps it to exactly when the pattern is one of the 10 table keys,
returns the unrecognized marker `-1` for every pattern not in the table, and in
every case returns either `-1` or a table digit — it is a total function that
never raises and never returns a digit for an unknown pattern. -/
theorem C5_decoder_total (p : SegPattern) :
    (∀ pd ∈ values, pd.1 = p →
        ReturnSingleNumber (patternToList p) = (pd.2 : ℤ)) ∧
    ((∀ pd ∈ values, pd.1 ≠ p) → ReturnSingleNumber (patternToList p) = -1) ∧
    (ReturnSingleNumber (patternToList p) = -1 ∨
      ∃ pd ∈ values, pd.1 = p ∧ ReturnSingleNumber (patternToList p) = (pd.2 : ℤ)) := by
  obtain ⟨a, b, c, d, e, f, g⟩ := p
  have h3 : ReturnSingleNumber (patternToList (a, b, c, d, e, f, g)) = -1 ∨
      ∃ pd ∈ values, pd.1 = (a, b, c, d, e, f, g) ∧
        ReturnSingleNumber (patternToList (a, b, c, d, e, f, g)) = (pd.2 : ℤ) := by
    rcases hv : valuesGet (a, b, c, d, e, f, g) with _ | n
    · left
      simp [ReturnSingleNumber, patternToList, hv]
    · right
      have hv2 : List.lookup (a, b, c, d, e, f, g) values = some n := hv
      refine ⟨((a, b, c, d, e, f, g), n), lookup_mem hv2, rfl, ?_⟩
      simp [ReturnSingleNumber, patternToList, hv]
  refine ⟨?_, ?_, h3⟩
  · intro pd hmem hp
    fin_cases hmem <;> rw [← hp] <;> decide
  · intro hall
    rcases h3 with h | ⟨pd, hmem, hp, _⟩
    · exact h
    · exact absurd hp (hall pd hmem)

/-- Witness for C5 at the table pattern of the digit 2. -/
theorem C5_witness :
    ReturnSingleNumber
        (patternToList (true, true, false, true, true, false, true)) =
      ((2 : ℕ) : ℤ) :=
  (C5_decoder_total (true, true, false, true, true, false, true)).1
    ((true, true, false, true, true, false, true), 2) (by decide) rfl

/-- C6: a pixel classifies as on exactly when its average intensity
`(r + g + b) / 3.0` strictly exceeds the threshold, so a pixel whose average
equals the threshold classifies as off: `(150,150,150)` at threshold 150 is
off and `(151,151,151)` is on, and `GetBoolValues` computes exactly these
booleans. -/
theorem C6_classifier_strict (r g b t : ℕ) :
    (classifyPixel t ⟨r, g, b⟩ = true ↔ ((r : ℚ) + g + b) / 3 > (t : ℚ)) ∧
    classifyPixel 150 ⟨150, 150, 150⟩ = false ∧
    classifyPixel 150 ⟨151, 151, 151⟩ = true ∧
    GetBoolValues [⟨150, 150, 150⟩, ⟨151, 151, 151⟩] = [false, true] := by
  refine ⟨?_, ?_, ?_, ?_⟩
  · simp [classifyPixel, avgIntensity, gt_iff_lt]
  · simp only [classifyPixel, avgIntensity]
    norm_num
  · simp only [classifyPixel, avgIntensity]
    norm_num
  · simp only [GetBoolValues, List.map_cons, List.map_nil, threshold,
      classifyPixel, avgIntensity]
    norm_num

/-- Witness for C6 at the boundary pixel. -/
theorem C6_witness : classifyPixel 150 ⟨150, 150, 150⟩ = false :=
  (C6_classifier_strict 0 0 0 0).2.1

/-- C10: the all-off segment pattern is absent from both lookup tables of the
corpus (script.py/readCamaratest.py and PixelToNumber.py), both decoders map it
to the unrecognized marker `-1`, and a fully black digit box classifies to the
all-off pattern and decodes to nothing — a blank display never yields a
concrete digit. -/
theorem C10_blank_unrecognized :
    valuesGet (false, false, false, false, false, false, false) = none ∧
    valuesGetPTN (false, false, false, false, false, false, false) = none ∧
    ReturnSingleNumber patBlank = -1 ∧
    returnSingleNumberPTN patBlank = -1 ∧
    GetBoolValues (List.replicate 7 blackPx) = List.replicate 7 false ∧
    digitResult (List.replicate 7 blackPx) = none := by
  have hb : GetBoolValues (List.replicate 7 blackPx) = List.replicate 7 false := by
    rw [GetBoolValues, List.map_replicate, classify_black]
  have h : digitOfSegPixels (List.replicate 7 blackPx) = -1 := by
    rw [digitOfSegPixels, hb]; decide
  refine ⟨by decide, by decide, by decide, by decide, hb, ?_⟩
  simp only [digitResult, h]
  norm_num

/-- C2 counterexample: the grid scan loop of script.py visits the cells of a
3×2 grid in plain row-major order, not in the claimed snake order. -/
theorem C2_counterexample :
    scriptVisitOrder 3 2 = [(0, 0), (1, 0), (2, 0), (0, 1), (1, 1), (2, 1)] ∧
    scriptVisitOrder 3 2 ≠ [(0, 0), (1, 0), (2, 0), (2, 1), (1, 1), (0, 1)] := by
  decide

/-- C2 (amended): the servo controller's sweep is boustrophedon — an odd row
starts at `H_MAX` and steps by `-h_step`, so with the code's step size
(`H_MAX = H_MIN + (n-1)*h_step`) position `col` of an odd row revisits the
angle of position `n-1-col` of an even row — while the heatmap grid scan of
script.py visits cells in row-major raster order: for a 3×2 grid the visited
sequence is `(0,0),(1,0),(2,0),(0,1),(1,1),(2,1)`. -/
theorem C2_amended_orders (n col row : ℕ) (HMIN HMAX s : ℚ)
    (hcol : col < n) (hrow : row % 2 = 1)
    (hspan : HMAX = HMIN + ((n : ℚ) - 1) * s) :
    scriptVisitOrder 3 2 = [(0, 0), (1, 0), (2, 0), (0, 1), (1, 1), (2, 1)] ∧
    (cervoRowAngles n HMIN HMAX s row)[col]? = some (HMAX - (col : ℚ) * s) ∧
    (cervoRowAngles n HMIN HMAX s row)[col]? =
      (cervoRowAngles n HMIN HMAX s 0)[n - 1 - col]? := by
  have hcolr : (List.range n)[col]? = some col := by
    simp [List.getElem?_range, hcol]
  have hfun : (if row % 2 = 0 then HMIN else HMAX) +
      (col : ℚ) * (if row % 2 = 0 then s else -s) = HMAX - (col : ℚ) * s := by
    rw [hrow, if_neg (by norm_num), if_neg (by norm_num)]
    ring
  have hodd : (cervoRowAngles n HMIN HMAX s row)[col]? =
      some (HMAX - (col : ℚ) * s) := by
    rw [cervoRowAngles, List.getElem?_map, hcolr, Option.map_some', hfun]
  have hidx : n - 1 - col < n := by omega
  have hidxr : (List.range n)[n - 1 - col]? = some (n - 1 - col) := by
    simp [List.getElem?_range, hidx]
  have hfun0 : (if (0 : ℕ) % 2 = 0 then HMIN else HMAX) +
      ((n - 1 - col : ℕ) : ℚ) * (if (0 : ℕ) % 2 = 0 then s else -s) =
      HMIN + ((n - 1 - col : ℕ) : ℚ) * s := by
    rw [if_pos (by norm_num), if_pos (by norm_num)]
  have heven : (cervoRowAngles n HMIN HMAX s 0)[n - 1 - col]? =
      some (HMIN + ((n - 1 - col : ℕ) : ℚ) * s) := by
    rw [cervoRowAngles, List.getElem?_map, hidxr, Option.map_some', hfun0]
  refine ⟨by decide, hodd, ?_⟩
  rw [hodd, heven]
  have hcast : ((n - 1 - col : ℕ) : ℚ) = (n : ℚ) - 1 - col := by
    have h1 : ((n - 1 - col : ℕ) : ℚ) = ((n : ℕ) : ℚ) - ((1 + col : ℕ) : ℚ) := by
      rw [Nat.sub_sub]
      exact_mod_cast Nat.cast_sub (by omega)
    rw [h1]; push_cast; ring
  rw [hcast]
  congr 1
  linear_combination hspan

/-- Witness for C2 (amended) at `n = 3`, `HMIN = 0`, `HMAX = 180`,
`h_step = 90`, row 1, column 2. -/
theorem C2_witness :
    scriptVisitOrder 3 2 = [(0, 0), (1, 0), (2, 0), (0, 1), (1, 1), (2, 1)] ∧
    (cervoRowAngles 3 0 180 90 1)[2]? = some (180 - ((2 : ℕ) : ℚ) * 90) ∧
    (cervoRowAngles 3 0 180 90 1)[2]? = (cervoRowAngles 3 0 180 90 0)[3 - 1 - 2]? :=
  C2_amended_orders 3 2 1 0 180 90 (by norm_num) (by norm_num) (by norm_num)

/-- C1 counterexample: assembling the decoded digits Unrecognized, 0, 4 with
two integer digits yields the reading 0.4, not the claimed whole-reading
fallback 0.0 — the unrecognized digit falls back to 0 in its own position
only, and the reading is partially computed from the recognized digits. -/
theorem C1_counterexample :
    digitResult segsUnrec = none ∧
    digitResult segsZero = some 0 ∧
    digitResult segsFour = some 4 ∧
    assemble_reading segsUnrec segsZero segsFour = 2 / 5 ∧
    (2 / 5 : ℚ) ≠ 0 := by
  refine ⟨digitResult_patBlank, digitResult_pat0, digitResult_pat4, ?_, by norm_num⟩
  rw [assemble_reading, safe_get_number_single, safe_get_number_single,
    safe_get_number_single]
  simp only [segsUnrec, segsZero, segsFour, digitResult_patBlank, digitResult_pat0,
    digitResult_pat4, Option.getD_some, Option.getD_none]
  rw [pyConcatFloat_small 0 0 4 (by norm_num) (by norm_num)]
  norm_num

/-- C1 (amended): each digit box is recognized independently through
`safe_get_number([seg_pixels])`, so an unrecognized digit contributes the
per-digit fallback 0 to its own position and the remaining recognized digits
still contribute theirs: assembling Unrecognized, d2, d3 yields the parse of
the string with 0 in the first position, e.g. Unrecognized, 0, 4 yields 0.4. -/
theorem C1_amended_per_digit_fallback (p1 p2 p3 : List Pixel) (d2 d3 : ℕ)
    (h1 : digitResult p1 = none) (h2 : digitResult p2 = some d2)
    (h3 : digitResult p3 = some d3) :
    assemble_reading p1 p2 p3 = (d2 : ℚ) + (d3 : ℚ) / 10 := by
  have hd2 : d2 ≤ 9 := digitResult_le_nine p2 d2 h2
  have hd3 : d3 ≤ 9 := digitResult_le_nine p3 d3 h3
  rw [assemble_reading, safe_get_number_single, safe_get_number_single,
    safe_get_number_single, h1, h2, h3]
  simp only [Option.getD_some, Option.getD_none]
  rw [pyConcatFloat_small 0 d2 d3 hd2 hd3]
  push_cast
  ring

/-- Witness for C1 (amended) at the concrete sequence Unrecognized, 0, 4. -/
theorem C1_witness :
    assemble_reading segsUnrec segsZero segsFour =
      ((0 : ℕ) : ℚ) + ((4 : ℕ) : ℚ) / 10 :=
  C1_amended_per_digit_fallback segsUnrec segsZero segsFour 0 4
    digitResult_patBlank digitResult_pat0 digitResult_pat4

/-- C3 counterexample: on a 2×1 grid whose first camera poll is dropped, the
scan writes the fallback 0.0 into the first cell and advances — the next
good frame lands in the second cell, not in the first as the claim (skip the
write, do not advance) would require. -/
theorem C3_counterexample :
    runScan dropThenGood 2 1 = [[0, 102 / 5]] ∧
    update_ui_value (dropThenGood 0) = 0 ∧
    update_ui_value (dropThenGood 1) = 102 / 5 ∧
    (102 / 5 : ℚ) ≠ 0 := by
  have h0 : dropThenGood 0 = none := rfl
  have h1 : dropThenGood 1 = some frame204 := rfl
  have hscan : runScan dropThenGood 2 1 =
      [[update_ui_value (dropThenGood 0), update_ui_value (dropThenGood 1)]] := rfl
  refine ⟨?_, ?_, ?_, by norm_num⟩
  · rw [hscan, h0, h1]
    simp only [update_ui_value, read204]
  · rw [h0]
    rfl
  · rw [h1]
    simp only [update_ui_value, read204]

/-- C3 (amended): every cell of the scan is written from exactly its own
camera poll; when that poll is a dropped frame the per-frame pipeline is
skipped and the fallback reading 0.0 is written into the cell, the scan
advances to the next cell, and the loop continues without crashing (the scan
is a total function). -/
theorem C3_amended_dropped_frame (cam : ℕ → Option Frame) (w h y x : ℕ)
    (hy : y < h) (hx : x < w) :
    ((runScan cam w h)[y]?.bind fun row => row[x]?) =
      some (update_ui_value (cam (y * w + x))) ∧
    (cam (y * w + x) = none →
      ((runScan cam w h)[y]?.bind fun row => row[x]?) = some 0) := by
  have hyr : (List.range h)[y]? = some y := by simp [List.getElem?_range, hy]
  have hxr : (List.range w)[x]? = some x := by simp [List.getElem?_range, hx]
  have hmain : ((runScan cam w h)[y]?.bind fun row => row[x]?) =
      some (update_ui_value (cam (y * w + x))) := by
    simp [runScan, List.getElem?_map, hyr, hxr]
  refine ⟨hmain, fun hc => ?_⟩
  rw [hmain, hc]
  rfl

/-- Witness for C3 (amended) at the dropped first poll of a 2×1 scan. -/
theorem C3_witness :
    ((runScan dropThenGood 2 1)[0]?.bind fun row => row[0]?) =
      some (update_ui_value (dropThenGood (0 * 2 + 0))) ∧
    (dropThenGood (0 * 2 + 0) = none →
      ((runScan dropThenGood 2 1)[0]?.bind fun row => row[0]?) = some 0) :=
  C3_amended_dropped_frame dropThenGood 2 1 0 0 (by norm_num) (by norm_num)

/-- C4: when the three digit boxes of a frame decode to concrete digits
`d1, d2, d3`, the assembled reading is the float parse of the string
`"d1d2.d3"`, namely `10*d1 + d2 + d3/10`, and a completed 1×1 grid scan over
that frame stores exactly that value in the single grid cell. -/
theorem C4_recognized_reading_and_scan (f : Frame) (d1 d2 d3 : ℕ)
    (h1 : frameDigitResult f 0 = some d1) (h2 : frameDigitResult f 1 = some d2)
    (h3 : frameDigitResult f 2 = some d3) :
    read_digits_from_frame f = 10 * (d1 : ℚ) + (d2 : ℚ) + (d3 : ℚ) / 10 ∧
    runScan (fun _ => some f) 1 1 =
      [[10 * (d1 : ℚ) + (d2 : ℚ) + (d3 : ℚ) / 10]] := by
  rw [frameDigitResult] at h1 h2 h3
  have hd2 : d2 ≤ 9 := digitResult_le_nine _ _ h2
  have hd3 : d3 ≤ 9 := digitResult_le_nine _ _ h3
  have hr : read_digits_from_frame f = 10 * (d1 : ℚ) + (d2 : ℚ) + (d3 : ℚ) / 10 := by
    rw [read_digits_from_frame, assemble_reading, safe_get_number_single,
      safe_get_number_single, safe_get_number_single, h1, h2, h3]
    simp only [Option.getD_some]
    rw [pyConcatFloat_small d1 d2 d3 hd2 hd3]
  have hs : runScan (fun _ => some f) 1 1 = [[read_digits_from_frame f]] := rfl
  exact ⟨hr, by rw [hs, hr]⟩

/-- Witness for C4 at `frame204`, whose boxes decode to 2, 0, 4. -/
theorem C4_witness :
    read_digits_from_frame frame204 =
      10 * ((2 : ℕ) : ℚ) + ((0 : ℕ) : ℚ) + ((4 : ℕ) : ℚ) / 10 ∧
    runScan (fun _ => some frame204) 1 1 =
      [[10 * ((2 : ℕ) : ℚ) + ((0 : ℕ) : ℚ) + ((4 : ℕ) : ℚ) / 10]] :=
  C4_recognized_reading_and_scan frame204 2 0 4 frameDigitResult204.1
    frameDigitResult204.2.1 frameDigitResult204.2.2

/-- C7: a segment offset whose computed absolute pixel lies outside the frame
bounds samples the defined edge colour `(0, 0, 0)` (no exception is possible:
sampling is a total function), and that colour classifies as off at the
default threshold. -/
theorem C7_out_of_bounds_black (f : Frame) (box : ℚ × ℚ × ℚ × ℚ)
    (offs : List (ℚ × ℚ)) (i : ℕ) (hi : i < offs.length)
    (hout : ¬ inBounds f (segPixelCoord f box (offs.get ⟨i, hi⟩))) :
    (extract_digit_pixels_fractional f box offs)[i]? = some (⟨0, 0, 0⟩ : Pixel) ∧
    classifyPixel threshold ⟨0, 0, 0⟩ = false := by
  have hoi : offs[i]? = some (offs.get ⟨i, hi⟩) := by
    rw [List.getElem?_eq_getElem hi]
    rfl
  refine ⟨?_, classify_black⟩
  rw [extract_digit_pixels_fractional, List.getElem?_map, hoi, Option.map_some']
  rw [samplePixel, if_neg hout]

/-- Witness for C7: a 1×1 frame with an offset far outside its digit box. -/
theorem C7_witness :
    (extract_digit_pixels_fractional ⟨1, 1, fun _ _ => whitePx⟩ (0, 0, 1, 1)
        [(5, 5)])[0]? = some (⟨0, 0, 0⟩ : Pixel) ∧
    classifyPixel threshold ⟨0, 0, 0⟩ = false :=
  C7_out_of_bounds_black ⟨1, 1, fun _ _ => whitePx⟩ (0, 0, 1, 1) [(5, 5)] 0
    (by norm_num)
    (by norm_num [inBounds, segPixelCoord, pyInt])

/-- C8: when the camera cannot be opened, `main` returns before the scan loop:
the run surfaces the camera-unavailable outcome, it is not a completed scan
for any grid or visit sequence — no cell is visited and no grid cell is
written. -/
theorem C8_camera_unavailable_idle (cam : ℕ → Option Frame) (w h : ℕ) :
    mainScan false cam w h = MainOutcome.cameraUnavailable ∧
    ∀ grid visited, mainScan false cam w h ≠ MainOutcome.completed grid visited := by
  refine ⟨rfl, fun grid visited hcontra => ?_⟩
  simp [mainScan] at hcontra

/-- Witness for C8 at a camera that never delivers frames. -/
theorem C8_witness :
    mainScan false (fun _ => none) 1 1 = MainOutcome.cameraUnavailable :=
  (C8_camera_unavailable_idle (fun _ => none) 1 1).1

/-- C9: every reading produced by the three-digit pipeline is the parse of a
string `"AB.C"` with decimal digits A, B, C in 0–9 (a recognized digit or the
per-digit fallback 0), so every reading lies in `[0, 99.9]` and ten times the
reading is a whole number — at most one fractional decimal digit. -/
theorem C9_reading_shape (f : Frame) :
    ∃ a b c : ℕ, a ≤ 9 ∧ b ≤ 9 ∧ c ≤ 9 ∧
      read_digits_from_frame f = 10 * (a : ℚ) + (b : ℚ) + (c : ℚ) / 10 ∧
      0 ≤ read_digits_from_frame f ∧
      read_digits_from_frame f ≤ 999 / 10 ∧
      10 * read_digits_from_frame f = ((100 * a + 10 * b + c : ℕ) : ℚ) := by
  have hr : read_digits_from_frame f =
      pyConcatFloat (safe_get_number [frameSegPixels f 0])
        (safe_get_number [frameSegPixels f 1])
        (safe_get_number [frameSegPixels f 2]) := rfl
  have la := safe_get_number_single_le (frameSegPixels f 0)
  have lb := safe_get_number_single_le (frameSegPixels f 1)
  have lc := safe_get_number_single_le (frameSegPixels f 2)
  have hsmall : read_digits_from_frame f =
      10 * (safe_get_number [frameSegPixels f 0] : ℚ) +
        (safe_get_number [frameSegPixels f 1] : ℚ) +
        (safe_get_number [frameSegPixels f 2] : ℚ) / 10 := by
    rw [hr, pyConcatFloat_small _ _ _ lb lc]
  have h1 : ((safe_get_number [frameSegPixels f 0] : ℕ) : ℚ) ≤ 9 := by
    exact_mod_cast la
  have h2 : ((safe_get_number [frameSegPixels f 1] : ℕ) : ℚ) ≤ 9 := by
    exact_mod_cast lb
  have h3 : ((safe_get_number [frameSegPixels f 2] : ℕ) : ℚ) ≤ 9 := by
    exact_mod_cast lc
  refine ⟨_, _, _, la, lb, lc, hsmall, ?_, ?_, ?_⟩
  · rw [hsmall]
    positivity
  · rw [hsmall]
    linarith
  · rw [hsmall]
    push_cast
    ring

/-- Witness for C9 at `frame204`. -/
theorem C9_witness :
    ∃ a b c : ℕ, a ≤ 9 ∧ b ≤ 9 ∧ c ≤ 9 ∧
      read_digits_from_frame frame204 = 10 * (a : ℚ) + (b : ℚ) + (c : ℚ) / 10 ∧
      0 ≤ read_digits_from_frame frame204 ∧
      read_digits_from_frame frame204 ≤ 999 / 10 ∧
      10 * read_digits_from_frame frame204 = ((100 * a + 10 * b + c : ℕ) : ℚ) :=
  C9_reading_shape frame204
